import Mathlib

/-!
Verification of the nexus-llm repository: a shallow embedding of
`src/nexus_llm/config.py`, `src/nexus_llm/factory.py`,
`src/simple_llm/llm_interface.py` and `src/simple_llm/prompts.py`,
with theorems settling the specification claims.

Modelling conventions:
* Python dictionaries with string keys and string values are association
  lists (`List (String × String)`); lookup takes the first matching entry
  (dictionaries have unique keys, so this is faithful).
* Python `str.format(**kwargs)` is modelled for simple named fields
  (`\x7bname\x7d`, with `\x7b\x7b` / `\x7d\x7d` escapes); a missing key is a KeyError,
  a stray brace is a ValueError.  Format specifications and conversions
  (`:spec`, `!r`) are not modelled; no claim depends on them.
* Fallible Python code returns `Except`; the error carries the message
  the source builds (single quotes written via `Char.ofNat 39`,
  Python `repr` escaping of quote characters inside keys not modelled).
* The filesystem is an explicit structure mapping absolute, normalized
  paths (component lists) to the content of regular files; `Path.resolve`
  is modelled as `..`-normalization against a current working directory
  (symbolic links are not modelled).
-/

/-- The single-quote character, as the source's f-strings quote keys. -/
def sglq : String := String.mk [Char.ofNat 39]

/-- Wraps a string in single quotes, as Python f-strings with quoted fields do. -/
def quoted (s : String) : String := sglq ++ s ++ sglq

/-- The open-brace character used by Python format strings. -/
def lbrace : Char := Char.ofNat 123

/-- The close-brace character used by Python format strings. -/
def rbrace : Char := Char.ofNat 125

/-- Core loop of the `str.format` model.  The second argument is `none`
when scanning literal text and `some acc` while reading a field name
(accumulated in reverse).  Mirrors CPython's simple named-field handling:
doubled braces escape, `\x7bname\x7d` looks `name` up in the keyword mapping
(`KeyError` when absent), and an unmatched brace is an error. -/
def fmtGo (v : String → Option String) : List Char → Option (List Char) → Except String (List Char)
  | [], none => .ok []
  | [], some _ => .error "Single open brace encountered in format string"
  | c :: rest, none =>
    if c = lbrace then
      match rest with
      | c2 :: rest2 =>
        if c2 = lbrace then (fmtGo v rest2 none).map (fun s => lbrace :: s)
        else fmtGo v (c2 :: rest2) (some [])
      | [] => .error "Single open brace encountered in format string"
    else if c = rbrace then
      match rest with
      | c2 :: rest2 =>
        if c2 = rbrace then (fmtGo v rest2 none).map (fun s => rbrace :: s)
        else .error "Single close brace encountered in format string"
      | [] => .error "Single close brace encountered in format string"
    else (fmtGo v rest none).map (fun s => c :: s)
  | c :: rest, some acc =>
    if c = rbrace then
      match v (String.mk acc.reverse) with
      | none => .error ("KeyError: " ++ String.mk acc.reverse)
      | some val => (fmtGo v rest none).map (fun s => val.data ++ s)
    else fmtGo v rest (some (c :: acc))

/-- Model of Python `template.format(**vars)` restricted to named fields. -/
def pyFormat (template : String) (v : String → Option String) : Except String String :=
  (fmtGo v template.data none).map String.mk

/-- First-match lookup in an association list, modelling `dict[key]` access. -/
def lookupVar (d : List (String × String)) (k : String) : Option String :=
  (d.find? (fun p => p.1 == k)).map (fun p => p.2)

/-- Model of line 50 of `llm_interface.py`:
`all_vars = \x7b**(varBindings or \x7b\x7d), "user_input": user_input\x7d`.
A Python dict literal merges silently, the later binding winning, so the
merged mapping sends `"user_input"` to the `user_input` parameter and
every other key to its binding in `varBindings`. -/
def all_vars (varBindings : Option (List (String × String))) (user_input : String) :
    String → Option String :=
  fun k => if k == "user_input" then some user_input else lookupVar (varBindings.getD []) k

/-- A LangChain chat message, as far as this layer observes it. -/
inductive Message where
  | system (content : String)
  | human (content : String)
  | ai (content : String)
deriving Repr, DecidableEq

/-- A few-shot example: the `\x7b"user": ..., "assistant": ...\x7d` dicts the
interface receives. -/
structure FewShotExample where
  user : String
  assistant : String
deriving Repr, DecidableEq

/-- The `for example in few_shot_examples` loop of `_build_messages`:
each example appends its formatted `user` template as a Human message and
its formatted `assistant` template as an AI message, in list order. -/
def buildFewShotMessages (v : String → Option String) :
    List FewShotExample → Except String (List Message)
  | [] => .ok []
  | e :: rest =>
    match pyFormat e.user v with
    | .error err => .error err
    | .ok u =>
      match pyFormat e.assistant v with
      | .error err => .error err
      | .ok a =>
        match buildFewShotMessages v rest with
        | .error err => .error err
        | .ok tail => .ok (Message.human u :: Message.ai a :: tail)

/-- Final human content: `if human_prompt_template:` is Python truthiness,
so both `None` and the empty string fall through to the raw `user_input`. -/
def finalHumanContent (human_prompt_template : Option String)
    (v : String → Option String) (user_input : String) : Except String String :=
  match human_prompt_template with
  | some t => if t.data.isEmpty then .ok user_input else pyFormat t v
  | none => .ok user_input

/-- Model of `LLMInterface._build_messages`.  `few_shot_examples` behind
`if few_shot_examples:` contributes nothing when `None` or empty, which
coincides with running the loop on `getD []`. -/
def _build_messages (system_prompt : String) (user_input : String)
    (human_prompt_template : Option String)
    (varBindings : Option (List (String × String)))
    (few_shot_examples : Option (List FewShotExample)) : Except String (List Message) :=
  let v := all_vars varBindings user_input
  match pyFormat system_prompt v with
  | .error err => .error err
  | .ok sysContent =>
    match buildFewShotMessages v (few_shot_examples.getD []) with
    | .error err => .error err
    | .ok shots =>
      match finalHumanContent human_prompt_template v user_input with
      | .error err => .error err
      | .ok final_human_content =>
        .ok (Message.system sysContent :: (shots ++ [Message.human final_human_content]))

/-- Model of `LLMProviderSettings` in `config.py`: an optional alias
(field `type`), an optional fully-qualified class path (`class_path`),
and a keyword-parameter bag (`params`, values kept as strings since this
layer never inspects them). -/
structure LLMProviderSettings where
  type : Option String
  class_path : Option String
  params : List (String × String)
deriving Repr, DecidableEq

/-- Model of the `check_type_or_class_path_exclusive` pydantic validator:
rejects a config with both or neither of `type`/`class_path`, and returns
the config itself otherwise. -/
def check_type_or_class_path_exclusive (s : LLMProviderSettings) :
    Except String LLMProviderSettings :=
  if s.type.isSome && s.class_path.isSome then
    .error ("Provide either " ++ quoted "type" ++ " or " ++ quoted "class_path" ++ ", not both.")
  else if s.type.isNone && s.class_path.isNone then
    .error ("Either " ++ quoted "type" ++ " or " ++ quoted "class_path" ++ " must be provided.")
  else .ok s

/-- Model of `Settings`: the `llm_providers` dictionary. -/
structure Settings where
  llm_providers : List (String × LLMProviderSettings)
deriving Repr, DecidableEq

/-- Dictionary access `settings.llm_providers[provider_key]` (and the
membership test `provider_key in settings.llm_providers`: the key is
absent exactly when this returns `none`). -/
def lookupProvider (s : Settings) (k : String) : Option LLMProviderSettings :=
  (s.llm_providers.find? (fun p => p.1 == k)).map (fun p => p.2)

/-- The key list `list(self.settings.llm_providers.keys())`. -/
def providerKeys (s : Settings) : List String := s.llm_providers.map (fun p => p.1)

/-- In-place mutation of the config object stored under key `k`
(`provider_config.class_path = ...` mutates the object the dict holds). -/
def setProvider (s : Settings) (k : String) (c : LLMProviderSettings) : Settings :=
  ⟨s.llm_providers.map (fun p => if p.1 == k then (p.1, c) else p)⟩

/-- The `BUILT_IN_PROVIDERS` table of `factory.py`. -/
def BUILT_IN_PROVIDERS : List (String × String) :=
  [("google", "langchain_google_genai.ChatGoogleGenerativeAI"),
   ("openai", "langchain_openai.ChatOpenAI"),
   ("azure", "langchain_openai.AzureChatOpenAI"),
   ("anthropic", "langchain_anthropic.ChatAnthropic"),
   ("groq", "langchain_groq.ChatGroq"),
   ("ollama", "langchain_ollama.ChatOllama")]

/-- Python `repr` of one string in a list rendering, already quoted. -/
def pyStrListInner : List String → String
  | [] => ""
  | [k] => quoted k
  | k :: rest => quoted k ++ ", " ++ pyStrListInner rest

/-- Python `str` of a list of strings, as an f-string interpolates it. -/
def pyStrList (ks : List String) : String := "[" ++ pyStrListInner ks ++ "]"

/-- The `ProviderNotFoundError` message built in `create_client`. -/
def providerNotFoundMsg (provider_key : String) (available_keys : List String) : String :=
  "Provider key " ++ quoted provider_key ++ " not found in settings. " ++
    "Available providers: " ++ pyStrList available_keys

/-- The `ConfigurationError` message for an unknown alias. -/
def invalidTypeMsg (t provider_key : String) : String :=
  "Invalid provider type " ++ quoted t ++ " for provider key " ++ quoted provider_key ++
    ". Available built-in types are: " ++ pyStrList (BUILT_IN_PROVIDERS.map (fun p => p.1))

/-- The `ConfigurationError` message for an import/getattr failure. -/
def importFailMsg (provider_key class_path err : String) : String :=
  "Failed to import LLM class for " ++ quoted provider_key ++ ". Check the class_path " ++
    quoted class_path ++ " and ensure the required package is installed. Error: " ++ err

/-- The `ConfigurationError` message for a constructor `TypeError`. -/
def instFailTypeMsg (provider_key class_path err : String) : String :=
  "Failed to instantiate LLM client for " ++ quoted provider_key ++
    ". Check if the parameters in your settings file match the constructor for the class " ++
    quoted class_path ++ ". Error: " ++ err

/-- The `ConfigurationError` message for any other constructor failure. -/
def instFailOtherMsg (provider_key err : String) : String :=
  "An unexpected error occurred while creating the client for " ++
    quoted provider_key ++ ": " ++ err

/-- Errors escaping `create_client`: the two library exceptions it raises,
plus the uncaught `ValueError` from unpacking `rsplit` when the class path
has no dot (`except` only catches `ImportError`/`AttributeError` there). -/
inductive CreateErr where
  | providerNotFound (msg : String)
  | configurationError (msg : String)
  | uncaughtValueError (msg : String)
deriving Repr, DecidableEq

/-- Failure modes of instantiating the resolved class: a `TypeError`
(parameter mismatch) or any other exception, which the source wraps with
different messages. -/
inductive InstFailure where
  | typeErr (msg : String)
  | otherErr (msg : String)
deriving Repr, DecidableEq

/-- Splits a character list on a separator character, the pieces in order;
models Python `str.split(sep)` for a one-character separator. -/
def splitOnChar (sep : Char) : List Char → List Char → List String
  | [], acc => [String.mk acc.reverse]
  | c :: rest, acc =>
    if c = sep then String.mk acc.reverse :: splitOnChar sep rest []
    else splitOnChar sep rest (c :: acc)

/-- Joins strings with a separator, modelling Python `sep.join(pieces)`. -/
def joinWith (sep : String) : List String → String
  | [] => ""
  | [x] => x
  | x :: rest => x ++ sep ++ joinWith sep rest

/-- Model of `class_path.rsplit(".", 1)` followed by 2-tuple unpacking:
`none` when the string contains no separator (Python raises `ValueError`). -/
def rsplitDot (s : String) : Option (String × String) :=
  match (splitOnChar '.' s.data []).reverse with
  | [] => none
  | [_] => none
  | lastName :: restRev => some (joinWith "." restRev.reverse, lastName)

/-- The import-and-instantiate tail of `create_client` (everything after
alias resolution).  `importClass` models `importlib.import_module` plus
`getattr` (its error text when either raises `ImportError`/`AttributeError`),
and `instantiate` models calling the class with the keyword parameters. -/
def importAndInstantiate {PyC Cl : Type}
    (importClass : String → String → Except String PyC)
    (instantiate : PyC → List (String × String) → Except InstFailure Cl)
    (provider_key : String) (cfg : LLMProviderSettings) : Except CreateErr Cl :=
  match cfg.class_path with
  | none =>
    -- `None.rsplit` raises `AttributeError`, which the `except` clause
    -- catches; the f-string renders the class path as `None`.
    .error (.configurationError
      (importFailMsg provider_key "None" "NoneType object has no attribute rsplit"))
  | some cp =>
    match rsplitDot cp with
    | none => .error (.uncaughtValueError "not enough values to unpack (expected 2, got 1)")
    | some (module_path, class_name) =>
      match importClass module_path class_name with
      | .error e => .error (.configurationError (importFailMsg provider_key cp e))
      | .ok llm_class =>
        match instantiate llm_class cfg.params with
        | .ok client => .ok client
        | .error (.typeErr e) =>
          .error (.configurationError (instFailTypeMsg provider_key cp e))
        | .error (.otherErr e) =>
          .error (.configurationError (instFailOtherMsg provider_key e))

/-- Model of `LLMFactory.create_client`.  Returns the call's result
together with the settings as they stand afterwards, making the in-place
alias resolution (`provider_config.class_path = BUILT_IN_PROVIDERS[...]`)
observable.  `if provider_config.type:` is Python truthiness, so an empty
alias string skips resolution. -/
def create_client {PyC Cl : Type}
    (importClass : String → String → Except String PyC)
    (instantiate : PyC → List (String × String) → Except InstFailure Cl)
    (settings : Settings) (provider_key : String) :
    Except CreateErr Cl × Settings :=
  match lookupProvider settings provider_key with
  | none =>
    (.error (.providerNotFound (providerNotFoundMsg provider_key (providerKeys settings))),
     settings)
  | some provider_config =>
    match provider_config.type with
    | some t =>
      if t.data.isEmpty then
        (importAndInstantiate importClass instantiate provider_key provider_config, settings)
      else
        match BUILT_IN_PROVIDERS.find? (fun p => p.1 == t) with
        | some entry =>
          let cfg2 := { provider_config with class_path := some entry.2 }
          (importAndInstantiate importClass instantiate provider_key cfg2,
           setProvider settings provider_key cfg2)
        | none =>
          (.error (.configurationError (invalidTypeMsg t provider_key)), settings)
    | none =>
      (importAndInstantiate importClass instantiate provider_key provider_config, settings)

/-- A `pathlib` path: whether it is absolute, and its non-root components.
Parsing collapses repeated separators and drops `.` components, keeping
`..`, exactly as `PurePath` normalization does. -/
structure PyPath where
  absolute : Bool
  parts : List String
deriving Repr, DecidableEq

/-- Model of `Path(key)` construction from a string. -/
def pyPathOf (key : String) : PyPath :=
  { absolute := match key.data with
      | c :: _ => c = '/'
      | [] => false,
    parts := (splitOnChar '/' key.data []).filter (fun s => s != "" && s != ".") }

/-- Model of `Path(key).parts`: for an absolute path the root `"/"` is the
first element. -/
def pyParts (key : String) : List String :=
  let p := pyPathOf key
  if p.absolute then "/" :: p.parts else p.parts

/-- Model of `base.joinpath(other)`: an absolute argument replaces the
base entirely. -/
def joinpath (base other : PyPath) : PyPath :=
  if other.absolute then other else ⟨base.absolute, base.parts ++ other.parts⟩

/-- Removes `..` components by popping the previous component, as
`Path.resolve` does on a symlink-free tree. -/
def normalizeParts (l : List String) : List String :=
  l.foldl (fun acc c => if c == ".." then acc.dropLast else acc ++ [c]) []

/-- Model of `Path.resolve()` without symbolic links: makes the path
absolute against the current working directory and normalizes `..`. -/
def resolvePure (cwd : List String) (p : PyPath) : PyPath :=
  if p.absolute then ⟨true, normalizeParts p.parts⟩
  else ⟨true, normalizeParts (cwd ++ p.parts)⟩

/-- The filesystem as this layer observes it: a current working directory
and the set of regular files, each an absolute normalized component list
with its text content.  A path absent from `files` is a missing path or a
directory; either way it is not a regular file. -/
structure FileSystem where
  cwd : List String
  files : List (List String × String)
deriving Repr, DecidableEq

/-- Model of `path.is_file()`. -/
def isFile (fs : FileSystem) (p : PyPath) : Bool :=
  p.absolute && ((fs.files.find? (fun f => f.1 == p.parts)).isSome)

/-- Model of `path.read_text("utf-8")` (and of the `aiofiles` read, which
returns the same content). -/
def readText (fs : FileSystem) (p : PyPath) : Option String :=
  (fs.files.find? (fun f => f.1 == p.parts)).map (fun f => f.2)

/-- Errors escaping the prompt provider: the `ValueError`s it raises, the
library's `TemplateNotFoundError`, and the (unreachable after `is_file`)
`OSError` from reading. -/
inductive PromptError where
  | valueError (msg : String)
  | templateNotFound (msg : String)
  | osError (msg : String)
deriving Repr, DecidableEq

/-- The traversal-rejection message of `_resolve_path`. -/
def traversalMsg : String := "Invalid key: path traversal is not allowed."

/-- Renders a path the way an f-string would, for the not-found message. -/
def renderPath (p : PyPath) : String :=
  (if p.absolute then "/" else "") ++ joinWith "/" p.parts

/-- The `TemplateNotFoundError` message of `_resolve_path`. -/
def notFoundMsg (key : String) (p : PyPath) : String :=
  "Resource with key " ++ quoted key ++ " not found at path: " ++ renderPath p

/-- Model of `FileSystemPromptProvider._resolve_path`: reject keys with a
`..` component, then resolve `base_path.joinpath(key)` and require a
regular file. -/
def _resolve_path (fs : FileSystem) (base_path : PyPath) (key : String) :
    Except PromptError PyPath :=
  if ".." ∈ pyParts key then .error (.valueError traversalMsg)
  else
    let resource_path := resolvePure fs.cwd (joinpath base_path (pyPathOf key))
    if isFile fs resource_path then .ok resource_path
    else .error (.templateNotFound (notFoundMsg key resource_path))

/-- Model of `FileSystemPromptProvider.get_template`. -/
def get_template (fs : FileSystem) (base_path : PyPath) (key : String) :
    Except PromptError String :=
  match _resolve_path fs base_path key with
  | .error e => .error e
  | .ok path =>
    match readText fs path with
    | some content => .ok content
    | none => .error (.osError "read failed")

/-- Model of `FileSystemPromptProvider.aget_template`: the same resolution
followed by the `aiofiles` read of the same file. -/
def aget_template (fs : FileSystem) (base_path : PyPath) (key : String) :
    Except PromptError String :=
  match _resolve_path fs base_path key with
  | .error e => .error e
  | .ok path =>
    match readText fs path with
    | some content => .ok content
    | none => .error (.osError "read failed")

/-- JSON values, as far as this layer observes them.  Numbers keep their
source spelling: the provider never inspects numeric values. -/
inductive Json where
  | null : Json
  | boolean : Bool → Json
  | number : String → Json
  | str : String → Json
  | arr : List Json → Json
  | obj : List (String × Json) → Json

/-- The not-a-list `ValueError` message of `get_few_shot_examples`. -/
def notListMsg : String := "Few-shot examples file must contain a JSON list."

/-- The JSON-decode `ValueError` message of `get_few_shot_examples`. -/
def decodeErrMsg (key err : String) : String :=
  "Error decoding JSON from key " ++ quoted key ++ ": " ++ err

/-- Model of `FileSystemPromptProvider.get_few_shot_examples`.
`jsonLoads` models `json.loads` (an external library function): `.error`
is a `json.JSONDecodeError` with its message.  The inner `ValueError` for
a non-list document is not a `JSONDecodeError`, so it propagates past the
`except` clause unchanged. -/
def get_few_shot_examples (jsonLoads : String → Except String Json)
    (fs : FileSystem) (base_path : PyPath) (key : String) :
    Except PromptError (List Json) :=
  match get_template fs base_path key with
  | .error e => .error e
  | .ok content =>
    match jsonLoads content with
    | .ok (Json.arr examples) => .ok examples
    | .ok _ => .error (.valueError notListMsg)
    | .error e => .error (.valueError (decodeErrMsg key e))

/-- Model of `FileSystemPromptProvider.aget_few_shot_examples`: the same
body over the async read. -/
def aget_few_shot_examples (jsonLoads : String → Except String Json)
    (fs : FileSystem) (base_path : PyPath) (key : String) :
    Except PromptError (List Json) :=
  match aget_template fs base_path key with
  | .error e => .error e
  | .ok content =>
    match jsonLoads content with
    | .ok (Json.arr examples) => .ok examples
    | .ok _ => .error (.valueError notListMsg)
    | .error e => .error (.valueError (decodeErrMsg key e))

/-- Substring containment, for claims that a message includes a key. -/
def strContains (hay needle : String) : Prop :=
  ∃ pre post : List Char, hay.data = pre ++ needle.data ++ post

/-- When every example's templates format successfully, the few-shot loop
produces exactly the Human/AI pair of each example, in input order. -/
theorem buildFewShotMessages_eq (v : String → Option String)
    (examples : List FewShotExample) (fmtPair : FewShotExample → String × String)
    (hex : ∀ e ∈ examples, pyFormat e.user v = .ok (fmtPair e).1 ∧
      pyFormat e.assistant v = .ok (fmtPair e).2) :
    buildFewShotMessages v examples =
      .ok (examples.flatMap
        (fun e => [Message.human (fmtPair e).1, Message.ai (fmtPair e).2])) := by
  induction examples with
  | nil => rfl
  | cons e rest ih =>
    obtain ⟨hu, ha⟩ := hex e (by simp)
    have hrest := ih (fun e2 he2 => hex e2 (by simp [he2]))
    simp [buildFewShotMessages, hu, ha, hrest]

/-- C1: `_build_messages` (hence `generate_text`, `generate_structured`
and their async twins, which all delegate assembly to it) produces the
ordered sequence `[System, Human 1, AI 1, ..., Human n, AI n, HumanFinal]`:
the system prompt formatted against the merged variables first, each
few-shot example's formatted user template as a Human message followed by
its formatted assistant template as an AI message in the input list's
order, and the final Human message last. -/
theorem build_messages_ordered_sequence
    (system_prompt user_input : String) (human_prompt_template : Option String)
    (varBindings : Option (List (String × String))) (examples : List FewShotExample)
    (fmtPair : FewShotExample → String × String) (sysContent finalContent : String)
    (hsys : pyFormat system_prompt (all_vars varBindings user_input) = .ok sysContent)
    (hex : ∀ e ∈ examples,
      pyFormat e.user (all_vars varBindings user_input) = .ok (fmtPair e).1 ∧
      pyFormat e.assistant (all_vars varBindings user_input) = .ok (fmtPair e).2)
    (hfin : finalHumanContent human_prompt_template (all_vars varBindings user_input)
      user_input = .ok finalContent) :
    _build_messages system_prompt user_input human_prompt_template varBindings
        (some examples) =
      .ok (Message.system sysContent ::
        (examples.flatMap
          (fun e => [Message.human (fmtPair e).1, Message.ai (fmtPair e).2]) ++
         [Message.human finalContent])) := by
  have hfew := buildFewShotMessages_eq _ examples fmtPair hex
  simp [_build_messages, hsys, hfew, hfin]

/-- C1 witness: the spec's scenario plus one few-shot example, assembled
concretely. -/
theorem build_messages_ordered_sequence_witness :
    _build_messages "Hi {user_input}" "Bob" none none
        (some [⟨"Q: {user_input}", "A: ok"⟩]) =
      .ok [Message.system "Hi Bob", Message.human "Q: Bob", Message.ai "A: ok",
           Message.human "Bob"] := by
  have h := build_messages_ordered_sequence "Hi {user_input}" "Bob" none none
    [⟨"Q: {user_input}", "A: ok"⟩] (fun _ => ("Q: Bob", "A: ok")) "Hi Bob" "Bob"
    rfl (by intro e he; simp at he; subst he; exact ⟨rfl, rfl⟩) rfl
  simpa using h

/-- C2 counterexample: with the reserved key `user_input` present in the
caller's variables, `_build_messages` raises no error at all — the dict
literal on line 50 merges silently, the implicit binding overriding the
caller's value (`Alice` is ignored, `Bob` is used). -/
theorem user_input_collision_counterexample :
    _build_messages "Hi {user_input}" "Bob" none (some [("user_input", "Alice")]) none =
      .ok [Message.system "Hi Bob", Message.human "Bob"] := rfl

/-- Filtering the reserved key out of the caller's variables does not
change any lookup of a different key. -/
theorem find?_filter_userinput (d : List (String × String)) (k : String)
    (hk : k ≠ "user_input") :
    (d.filter (fun p => p.1 != "user_input")).find? (fun p => p.1 == k) =
      d.find? (fun p => p.1 == k) := by
  induction d with
  | nil => rfl
  | cons a rest ih =>
    by_cases ha : a.1 = "user_input"
    · have h2 : ("user_input" == k) = false := by
        simp only [beq_eq_false_iff_ne, ne_eq]
        exact fun h => hk h.symm
      simp [List.filter_cons, ha, List.find?_cons, h2, ih]
    · simp only [List.filter_cons, bne_iff_ne, ne_eq, ha, not_false_eq_true, if_true]
      simp [List.find?_cons, ih]

/-- The merged variable mapping is unchanged by removing the colliding
entry from the caller's variables. -/
theorem all_vars_filter_userinput (d : List (String × String)) (user_input : String) :
    all_vars (some (d.filter (fun p => p.1 != "user_input"))) user_input =
      all_vars (some d) user_input := by
  funext k
  by_cases hk : k = "user_input"
  · simp [all_vars, hk]
  · have hbeq : (k == "user_input") = false := by simp [hk]
    simp [all_vars, hbeq, lookupVar, find?_filter_userinput d k hk]

/-- C2 (amended): when the caller-supplied variables contain the reserved
key `user_input`, no formatting or collision error is raised: the dict
literal merges silently, the implicit binding (the `user_input` parameter)
overrides the caller's value, and the whole call behaves exactly as if
the colliding entry had been removed. -/
theorem user_input_collision_silent_override
    (system_prompt user_input : String) (human_prompt_template : Option String)
    (d : List (String × String)) (few_shot_examples : Option (List FewShotExample))
    (hcol : "user_input" ∈ d.map (fun p => p.1)) :
    all_vars (some d) user_input "user_input" = some user_input ∧
    _build_messages system_prompt user_input human_prompt_template (some d)
        few_shot_examples =
      _build_messages system_prompt user_input human_prompt_template
        (some (d.filter (fun p => p.1 != "user_input"))) few_shot_examples := by
  refine ⟨by simp [all_vars], ?_⟩
  simp only [_build_messages]
  rw [all_vars_filter_userinput]

/-- C2 witness: the amended statement at a concrete colliding input. -/
theorem user_input_collision_silent_override_witness :
    all_vars (some [("user_input", "Alice")]) "Bob" "user_input" = some "Bob" :=
  (user_input_collision_silent_override "Hi {user_input}" "Bob" none
    [("user_input", "Alice")] none (by decide)).1

/-- C3 counterexample: a config holding only the alias passes validation,
but after `create_client` resolves the alias in place, the stored config
has BOTH `type` and `class_path` set — the very shape the validator
rejects — so the exclusivity invariant is not preserved. -/
theorem exclusivity_broken_counterexample :
    check_type_or_class_path_exclusive ⟨some "google", none, []⟩ =
      .ok ⟨some "google", none, []⟩ ∧
    lookupProvider
        (create_client (fun _ _ => (Except.error "no module" : Except String Unit))
          (fun _ _ => (Except.ok () : Except InstFailure Unit))
          ⟨[("g", ⟨some "google", none, []⟩)]⟩ "g").2 "g" =
      some ⟨some "google", some "langchain_google_genai.ChatGoogleGenerativeAI", []⟩ ∧
    check_type_or_class_path_exclusive
        ⟨some "google", some "langchain_google_genai.ChatGoogleGenerativeAI", []⟩ =
      .error ("Provide either " ++ quoted "type" ++ " or " ++ quoted "class_path" ++
        ", not both.") :=
  ⟨rfl, rfl, rfl⟩

/-- After replacing the entry stored under an existing key, looking that
key up returns the replacement. -/
theorem find?_map_set (l : List (String × LLMProviderSettings)) (k : String)
    (c : LLMProviderSettings) (h : (l.find? (fun p => p.1 == k)).isSome) :
    (l.map (fun p => if p.1 == k then (p.1, c) else p)).find? (fun p => p.1 == k) =
      some (k, c) := by
  induction l with
  | nil => simp at h
  | cons a rest ih =>
    rw [List.map_cons]
    by_cases hak : a.1 = k
    · have hb : (a.1 == k) = true := by simp [hak]
      rw [if_pos hb, List.find?_cons]
      simp only [hb]
      simp [hak]
    · have hb : (a.1 == k) = false := by simp [hak]
      have h2 : (rest.find? (fun p => p.1 == k)).isSome := by
        rw [List.find?_cons] at h
        simpa [hb] using h
      rw [if_neg (by simp [hak]), List.find?_cons]
      simp only [hb]
      exact ih h2

/-- Replacing the entry under one key leaves every other key's lookup
unchanged. -/
theorem find?_map_set_ne (l : List (String × LLMProviderSettings)) (k k2 : String)
    (c : LLMProviderSettings) (hne : k2 ≠ k) :
    (l.map (fun p => if p.1 == k then (p.1, c) else p)).find? (fun p => p.1 == k2) =
      l.find? (fun p => p.1 == k2) := by
  induction l with
  | nil => rfl
  | cons a rest ih =>
    rw [List.map_cons, List.find?_cons, List.find?_cons]
    by_cases hak : a.1 = k
    · have hb : (a.1 == k) = true := by simp [hak]
      have h2 : (a.1 == k2) = false := by
        simp only [beq_eq_false_iff_ne, ne_eq, hak]
        exact fun hh => hne hh.symm
      rw [if_pos hb]
      simp only [h2]
      exact ih
    · rw [if_neg (by simp [hak])]
      cases hc : (a.1 == k2) <;> simp only [hc]
      all_goals first | exact ih | rfl

/-- Settings-level form of `find?_map_set`. -/
theorem lookupProvider_setProvider (s : Settings) (k : String)
    (c c0 : LLMProviderSettings) (h : lookupProvider s k = some c0) :
    lookupProvider (setProvider s k c) k = some c := by
  have hsome : (s.llm_providers.find? (fun p => p.1 == k)).isSome := by
    cases hf : s.llm_providers.find? (fun p => p.1 == k) with
    | none => rw [lookupProvider, hf] at h; simp at h
    | some p => simp [hf]
  rw [lookupProvider, setProvider]
  rw [find?_map_set s.llm_providers k c hsome]
  rfl

/-- C3 (amended): validation establishes the exclusivity invariant —
`check_type_or_class_path_exclusive` accepts a config (returning it
unchanged) exactly when one of `type`/`class_path` is set and the other
is not — but `create_client`'s in-place alias resolution does not
preserve it: resolving a built-in alias sets `class_path` while leaving
`type` set, so the stored config afterwards has both fields set. -/
theorem exclusivity_validation_and_resolution :
    (∀ c : LLMProviderSettings,
      check_type_or_class_path_exclusive c = .ok c ↔
        c.type.isSome ≠ c.class_path.isSome) ∧
    (∀ {PyC Cl : Type} (importClass : String → String → Except String PyC)
        (instantiate : PyC → List (String × String) → Except InstFailure Cl)
        (s : Settings) (k t : String) (cfg : LLMProviderSettings)
        (entry : String × String),
      lookupProvider s k = some cfg → cfg.type = some t → t.data.isEmpty = false →
      BUILT_IN_PROVIDERS.find? (fun p => p.1 == t) = some entry →
      lookupProvider (create_client importClass instantiate s k).2 k =
        some { cfg with class_path := some entry.2 } ∧
      ({ cfg with class_path := some entry.2 } : LLMProviderSettings).type = some t ∧
      ({ cfg with class_path := some entry.2 } : LLMProviderSettings).class_path =
        some entry.2) := by
  constructor
  · intro c
    obtain ⟨ot, oc, pr⟩ := c
    cases ot <;> cases oc <;> simp [check_type_or_class_path_exclusive]
  · intro PyC Cl importClass instantiate s k t cfg entry hl ht hte hb
    have hres : (create_client importClass instantiate s k).2 =
        setProvider s k { cfg with class_path := some entry.2 } := by
      simp [create_client, hl, ht, hte, hb]
    rw [hres]
    exact ⟨lookupProvider_setProvider s k _ cfg hl, ht, rfl⟩

/-- C3 witness: the amended statement instantiated on the counterexample
configuration. -/
theorem exclusivity_validation_and_resolution_witness :
    lookupProvider
        (create_client (fun _ _ => (Except.error "no module" : Except String Unit))
          (fun _ _ => (Except.ok () : Except InstFailure Unit))
          ⟨[("g", ⟨some "google", none, []⟩)]⟩ "g").2 "g" =
      some ⟨some "google", some "langchain_google_genai.ChatGoogleGenerativeAI", []⟩ :=
  (exclusivity_validation_and_resolution.2 _ _ ⟨[("g", ⟨some "google", none, []⟩)]⟩
    "g" "google" ⟨some "google", none, []⟩
    ("google", "langchain_google_genai.ChatGoogleGenerativeAI") rfl rfl rfl rfl).1

/-- Replacing the entry under a key twice with the same config is the
same as replacing it once. -/
theorem setProvider_setProvider (s : Settings) (k : String) (c : LLMProviderSettings) :
    setProvider (setProvider s k c) k c = setProvider s k c := by
  obtain ⟨l⟩ := s
  unfold setProvider
  simp only [Settings.mk.injEq, List.map_map]
  apply List.map_congr_left
  intro a _
  by_cases hak : a.1 = k
  · have hb : (a.1 == k) = true := by simp [hak]
    simp [Function.comp, hb]
  · have hb : (a.1 == k) = false := by simp [hak]
    simp [Function.comp, hb]

/-- Settings-level form of `find?_map_set_ne`. -/
theorem lookupProvider_setProvider_ne (s : Settings) (k k2 : String)
    (c : LLMProviderSettings) (hne : k2 ≠ k) :
    lookupProvider (setProvider s k c) k2 = lookupProvider s k2 := by
  rw [lookupProvider, setProvider]
  rw [find?_map_set_ne s.llm_providers k k2 c hne]
  rfl

/-- C4: for a provider configured via an alias in the built-in table,
`create_client` sets that provider's `class_path` to the table's fixed
value for the alias; the mutation touches only that one field of that one
provider (the settings afterwards are exactly `setProvider` of the
updated config, and every other key reads unchanged), and repeating the
call leaves the settings fixed. -/
theorem alias_resolution_idempotent {PyC Cl : Type}
    (importClass : String → String → Except String PyC)
    (instantiate : PyC → List (String × String) → Except InstFailure Cl)
    (s : Settings) (k t cp : String) (cfg : LLMProviderSettings)
    (hl : lookupProvider s k = some cfg)
    (ht : cfg.type = some t)
    (hb : BUILT_IN_PROVIDERS.find? (fun p => p.1 == t) = some (t, cp)) :
    (create_client importClass instantiate s k).2 =
        setProvider s k { cfg with class_path := some cp } ∧
    lookupProvider (create_client importClass instantiate s k).2 k =
        some { cfg with class_path := some cp } ∧
    (∀ k2, k2 ≠ k →
      lookupProvider (create_client importClass instantiate s k).2 k2 =
        lookupProvider s k2) ∧
    (create_client importClass instantiate
        (create_client importClass instantiate s k).2 k).2 =
      (create_client importClass instantiate s k).2 := by
  have hmem := List.mem_of_find?_eq_some hb
  have hte : t.data.isEmpty = false := by
    simp only [BUILT_IN_PROVIDERS, List.mem_cons, Prod.mk.injEq,
      List.not_mem_nil, or_false] at hmem
    rcases hmem with ⟨h1, _⟩|⟨h1, _⟩|⟨h1, _⟩|⟨h1, _⟩|⟨h1, _⟩|⟨h1, _⟩ <;> subst h1 <;> rfl
  obtain ⟨ct, ccp, cpars⟩ := cfg
  have ht2 : ct = some t := ht
  subst ht2
  have hres : create_client importClass instantiate s k =
      (importAndInstantiate importClass instantiate k ⟨some t, some cp, cpars⟩,
       setProvider s k ⟨some t, some cp, cpars⟩) := by
    simp [create_client, hl, hte, hb]
  have hlook2 : lookupProvider (create_client importClass instantiate s k).2 k =
      some ⟨some t, some cp, cpars⟩ := by
    rw [hres]
    exact lookupProvider_setProvider s k _ _ hl
  refine ⟨by rw [hres], hlook2, ?_, ?_⟩
  · intro k2 hk2
    rw [hres]
    exact lookupProvider_setProvider_ne s k k2 _ hk2
  · rw [hres]
    have hlook3 : lookupProvider (setProvider s k ⟨some t, some cp, cpars⟩) k =
        some ⟨some t, some cp, cpars⟩ :=
      lookupProvider_setProvider s k _ _ hl
    have hres2 : create_client importClass instantiate
        (setProvider s k ⟨some t, some cp, cpars⟩) k =
        (importAndInstantiate importClass instantiate k ⟨some t, some cp, cpars⟩,
         setProvider (setProvider s k ⟨some t, some cp, cpars⟩) k
           ⟨some t, some cp, cpars⟩) := by
      simp [create_client, hlook3, hte, hb]
    rw [hres2]
    exact setProvider_setProvider s k ⟨some t, some cp, cpars⟩

/-- C4 witness: the spec's scenario — alias `google` with one parameter —
resolved concretely; only `class_path` is filled in. -/
theorem alias_resolution_idempotent_witness :
    (create_client (fun _ _ => (Except.error "no module" : Except String Unit))
        (fun _ _ => (Except.ok () : Except InstFailure Unit))
        ⟨[("g", ⟨some "google", none, [("model", "x")]⟩)]⟩ "g").2 =
      setProvider ⟨[("g", ⟨some "google", none, [("model", "x")]⟩)]⟩ "g"
        ⟨some "google", some "langchain_google_genai.ChatGoogleGenerativeAI",
         [("model", "x")]⟩ :=
  (alias_resolution_idempotent _ _ ⟨[("g", ⟨some "google", none, [("model", "x")]⟩)]⟩
    "g" "google" "langchain_google_genai.ChatGoogleGenerativeAI"
    ⟨some "google", none, [("model", "x")]⟩ rfl rfl rfl).1

/-- Every member of a key list appears verbatim inside its Python list
rendering. -/
theorem pyStrListInner_contains (ks : List String) (k : String) (hk : k ∈ ks) :
    ∃ pre post : String, pyStrListInner ks = pre ++ k ++ post := by
  induction ks with
  | nil => cases hk
  | cons a rest ih =>
    rcases List.mem_cons.mp hk with rfl | hk2
    · cases rest with
      | nil => exact ⟨sglq, sglq, by simp [pyStrListInner, quoted, String.append_assoc]⟩
      | cons b rest2 =>
        refine ⟨sglq, sglq ++ ", " ++ pyStrListInner (b :: rest2), ?_⟩
        show quoted k ++ ", " ++ pyStrListInner (b :: rest2) = _
        simp [quoted, String.append_assoc]
    · cases rest with
      | nil => cases hk2
      | cons b rest2 =>
        obtain ⟨pre, post, heq⟩ := ih hk2
        refine ⟨quoted a ++ ", " ++ pre, post, ?_⟩
        show quoted a ++ ", " ++ pyStrListInner (b :: rest2) = _
        rw [heq]
        simp [String.append_assoc]

/-- Every configured key appears in the `ProviderNotFoundError` message. -/
theorem providerNotFoundMsg_contains (k : String) (ks : List String) (key : String)
    (hk : key ∈ ks) : strContains (providerNotFoundMsg k ks) key := by
  obtain ⟨pre, post, heq⟩ := pyStrListInner_contains ks key hk
  refine ⟨("Provider key " ++ quoted k ++ " not found in settings. " ++
      "Available providers: " ++ "[" ++ pre).data, (post ++ "]").data, ?_⟩
  simp only [providerNotFoundMsg, pyStrList, heq]
  simp [String.data_append, List.append_assoc]

/-- C5: for a provider key absent from the configured providers mapping,
`create_client` fails with `ProviderNotFoundError`, the error message
contains every configured provider key verbatim, and the settings are
returned unchanged. -/
theorem create_client_missing_key_error {PyC Cl : Type}
    (importClass : String → String → Except String PyC)
    (instantiate : PyC → List (String × String) → Except InstFailure Cl)
    (s : Settings) (k : String) (h : lookupProvider s k = none) :
    (create_client importClass instantiate s k).1 =
      .error (.providerNotFound (providerNotFoundMsg k (providerKeys s))) ∧
    (create_client importClass instantiate s k).2 = s ∧
    ∀ key ∈ providerKeys s, strContains (providerNotFoundMsg k (providerKeys s)) key := by
  refine ⟨by simp [create_client, h], by simp [create_client, h], ?_⟩
  intro key hkey
  exact providerNotFoundMsg_contains k (providerKeys s) key hkey

/-- C5 witness: two configured providers, a missing key, the message
containing both configured keys. -/
theorem create_client_missing_key_error_witness :
    (create_client (fun _ _ => (Except.error "no module" : Except String Unit))
        (fun _ _ => (Except.ok () : Except InstFailure Unit))
        ⟨[("a", ⟨some "google", none, []⟩), ("b", ⟨some "openai", none, []⟩)]⟩
        "missing").1 =
      .error (.providerNotFound (providerNotFoundMsg "missing" ["a", "b"])) ∧
    strContains (providerNotFoundMsg "missing" ["a", "b"]) "a" ∧
    strContains (providerNotFoundMsg "missing" ["a", "b"]) "b" := by
  have h := create_client_missing_key_error
    (fun _ _ => (Except.error "no module" : Except String Unit))
    (fun _ _ => (Except.ok () : Except InstFailure Unit))
    ⟨[("a", ⟨some "google", none, []⟩), ("b", ⟨some "openai", none, []⟩)]⟩
    "missing" rfl
  exact ⟨h.1, h.2.2 "a" (by simp [providerKeys]), h.2.2 "b" (by simp [providerKeys])⟩

/-- C6: a key containing a parent-directory component is rejected with the
traversal `ValueError` for every filesystem state — before any filesystem
access — and a key whose resolved path is not a regular file (missing, or
a directory) fails with `TemplateNotFoundError`; both for `get_template`
and `aget_template`. -/
theorem resolve_path_error_cases (base_path : PyPath) (key : String) :
    (".." ∈ pyParts key → ∀ fs : FileSystem,
      get_template fs base_path key = .error (.valueError traversalMsg) ∧
      aget_template fs base_path key = .error (.valueError traversalMsg)) ∧
    (∀ fs : FileSystem, ".." ∉ pyParts key →
      isFile fs (resolvePure fs.cwd (joinpath base_path (pyPathOf key))) = false →
      get_template fs base_path key = .error (.templateNotFound
        (notFoundMsg key (resolvePure fs.cwd (joinpath base_path (pyPathOf key))))) ∧
      aget_template fs base_path key = .error (.templateNotFound
        (notFoundMsg key (resolvePure fs.cwd (joinpath base_path (pyPathOf key)))))) := by
  constructor
  · intro htrav fs
    constructor <;> simp [get_template, aget_template, _resolve_path, htrav]
  · intro fs hno hnofile
    constructor <;> simp [get_template, aget_template, _resolve_path, hno, hnofile]

/-- C6 witness: the spec's two scenarios, concretely. -/
theorem resolve_path_error_cases_witness :
    get_template ⟨[], []⟩ ⟨true, ["srv", "prompts"]⟩ "../secret" =
      .error (.valueError traversalMsg) ∧
    get_template ⟨[], []⟩ ⟨true, ["srv", "prompts"]⟩ "missing.txt" =
      .error (.templateNotFound (notFoundMsg "missing.txt"
        ⟨true, ["srv", "prompts", "missing.txt"]⟩)) := by
  constructor
  · exact ((resolve_path_error_cases ⟨true, ["srv", "prompts"]⟩ "../secret").1
      (by decide) ⟨[], []⟩).1
  · exact ((resolve_path_error_cases ⟨true, ["srv", "prompts"]⟩ "missing.txt").2
      ⟨[], []⟩ (by decide) rfl).1

/-- C7: when the resolved file's content parses as a top-level JSON list,
`get_few_shot_examples` returns exactly that parsed list (so re-encoding
it is structurally the file's parsed content); valid JSON that is not a
top-level list fails with the descriptive list `ValueError`, and content
that fails to parse fails with the decode `ValueError` naming the key. -/
theorem get_few_shot_examples_roundtrip
    (jsonLoads : String → Except String Json) (fs : FileSystem) (base_path : PyPath)
    (key content : String) (hget : get_template fs base_path key = .ok content) :
    (∀ xs, jsonLoads content = .ok (.arr xs) →
      get_few_shot_examples jsonLoads fs base_path key = .ok xs) ∧
    (∀ j, jsonLoads content = .ok j → (∀ xs, j ≠ .arr xs) →
      get_few_shot_examples jsonLoads fs base_path key =
        .error (.valueError notListMsg)) ∧
    (∀ e, jsonLoads content = .error e →
      get_few_shot_examples jsonLoads fs base_path key =
        .error (.valueError (decodeErrMsg key e))) := by
  refine ⟨?_, ?_, ?_⟩
  · intro xs hj
    simp [get_few_shot_examples, hget, hj]
  · intro j hj hnl
    cases j with
    | arr xs => exact absurd rfl (hnl xs)
    | null => simp [get_few_shot_examples, hget, hj]
    | boolean b => simp [get_few_shot_examples, hget, hj]
    | number n => simp [get_few_shot_examples, hget, hj]
    | str s2 => simp [get_few_shot_examples, hget, hj]
    | obj o => simp [get_few_shot_examples, hget, hj]
  · intro e he
    simp [get_few_shot_examples, hget, he]

/-- C7 witness: a file containing the JSON text `[]`, with a parser that
recognizes it, round-trips to the empty list. -/
theorem get_few_shot_examples_roundtrip_witness :
    get_few_shot_examples (fun s => if s == "[]" then .ok (.arr []) else .error "bad")
      ⟨[], [(["srv", "prompts", "ex.json"], "[]")]⟩ ⟨true, ["srv", "prompts"]⟩
      "ex.json" = .ok [] :=
  (get_few_shot_examples_roundtrip
    (fun s => if s == "[]" then .ok (.arr []) else .error "bad")
    ⟨[], [(["srv", "prompts", "ex.json"], "[]")]⟩ ⟨true, ["srv", "prompts"]⟩
    "ex.json" "[]" rfl).1 [] rfl

/-- C8: the async operations return the same value and the same error as
their synchronous counterparts on every key and filesystem state (the
non-blocking nature of the underlying read is a scheduling property with
no observable effect on the result). -/
theorem async_sync_equivalence (fs : FileSystem) (base_path : PyPath) (key : String) :
    aget_template fs base_path key = get_template fs base_path key ∧
    ∀ jsonLoads, aget_few_shot_examples jsonLoads fs base_path key =
      get_few_shot_examples jsonLoads fs base_path key :=
  ⟨rfl, fun _ => rfl⟩

/-- C9: `_resolve_path` rejects a key (with a `ValueError`) exactly when
one of its path components equals `..`; in particular an absolute key
such as `/etc/hostname` has no such component, `joinpath` lets it replace
the base entirely, and `get_template` then reads a file that does not lie
under the provider's base directory. -/
theorem traversal_iff_and_absolute_escape :
    (∀ (fs : FileSystem) (base_path : PyPath) (key : String),
      (∃ m, _resolve_path fs base_path key = .error (.valueError m)) ↔
        ".." ∈ pyParts key) ∧
    pyParts "/etc/hostname" = ["/", "etc", "hostname"] ∧
    (∀ base_path : PyPath,
      joinpath base_path (pyPathOf "/etc/hostname") = pyPathOf "/etc/hostname") ∧
    get_template ⟨[], [(["etc", "hostname"], "target-host")]⟩ ⟨true, ["srv", "prompts"]⟩
        "/etc/hostname" = .ok "target-host" ∧
    (∀ rest : List String,
      (resolvePure ([] : List String)
          (joinpath ⟨true, ["srv", "prompts"]⟩ (pyPathOf "/etc/hostname"))).parts ≠
        ["srv", "prompts"] ++ rest) := by
  refine ⟨?_, rfl, fun base_path => rfl, rfl, ?_⟩
  · intro fs base_path key
    constructor
    · rintro ⟨m, hm⟩
      by_contra h
      rw [_resolve_path, if_neg h] at hm
      by_cases hf : isFile fs (resolvePure fs.cwd (joinpath base_path (pyPathOf key))) = true <;>
        simp [hf] at hm
    · intro h
      exact ⟨traversalMsg, by rw [_resolve_path, if_pos h]⟩
  · intro rest h
    have h2 : (["etc", "hostname"] : List String) = ["srv", "prompts"] ++ rest := h
    have h3 := congrArg (fun l => l.head?) h2
    simp at h3

/-- C9 witness: the iff applied at a concrete traversal key. -/
theorem traversal_iff_and_absolute_escape_witness :
    ∃ m, _resolve_path ⟨[], []⟩ ⟨true, []⟩ "../secret" = .error (.valueError m) :=
  (traversal_iff_and_absolute_escape.1 ⟨[], []⟩ ⟨true, []⟩ "../secret").mpr (by decide)

/-- C10: an empty-string `human_prompt_template` behaves exactly like an
absent one — Python truthiness skips the `format` call, the final Human
message carries the raw `user_input`, and the whole assembly is equal to
the `None` case on every input. -/
theorem empty_template_uses_raw_input (system_prompt user_input : String)
    (varBindings : Option (List (String × String)))
    (few_shot_examples : Option (List FewShotExample)) :
    _build_messages system_prompt user_input (some "") varBindings few_shot_examples =
      _build_messages system_prompt user_input none varBindings few_shot_examples ∧
    (∀ v, finalHumanContent (some "") v user_input = .ok user_input) ∧
    (∀ ms, _build_messages system_prompt user_input (some "") varBindings
        few_shot_examples = .ok ms →
      ms.getLast? = some (Message.human user_input)) := by
  refine ⟨rfl, fun v => rfl, ?_⟩
  intro ms h
  rw [_build_messages] at h
  cases hsys : pyFormat system_prompt (all_vars varBindings user_input) with
  | error e => rw [hsys] at h; exact Except.noConfusion h
  | ok sysContent =>
    rw [hsys] at h
    cases hshots : buildFewShotMessages (all_vars varBindings user_input)
        (few_shot_examples.getD []) with
    | error e => rw [hshots] at h; exact Except.noConfusion h
    | ok shots =>
      rw [hshots] at h
      have h2 : Except.ok (Message.system sysContent ::
          (shots ++ [Message.human user_input])) = Except.ok ms := h
      have h3 := Except.ok.inj h2
      rw [← h3, ← List.cons_append, List.getLast?_concat]

/-- C10 witness: the equality at a concrete input. -/
theorem empty_template_uses_raw_input_witness :
    _build_messages "Hi" "Bob" (some "") none none =
      _build_messages "Hi" "Bob" none none none :=
  (empty_template_uses_raw_input "Hi" "Bob" none none).1
